import Mathlib

/-!
Verification of the greeting service in main.py.

The repository registers one request handler, get_current_time, with an
external function-execution framework. The handler validates the payload
into a pydantic model with a single string field name, reads the wall
clock, retrieves a strftime pattern from the configuration accessor under
the key format, and returns a mapping with a single key result holding the
rendered greeting. The bootstrap wrapper main starts the framework
service, logs any exception of the ordinary Exception class, and always
awaits the framework shutdown in a finally block.

The embedding below models payloads as association lists of JSON-like
values, the configuration accessor as a lookup function, and the clock as
an explicit DateTime argument. External collaborators (pydantic
validation, the strftime renderer, the framework lifecycle) are modelled
from their documented behaviour as the spec describes it, restricted to
what this service exercises.
-/

/-- JSON-like values carried in request payloads. -/
inductive Value where
  | str (s : String)
  | int (n : Int)
  | bool (b : Bool)
  | null
  deriving DecidableEq, Repr

/-- A request payload: a mapping from field names to values, modelled as an
association list with the first binding of a key authoritative. -/
abbrev Payload := List (String × Value)

/-- The two error classes the spec distinguishes: pydantic validation
failure and a failure while rendering the timestamp. -/
inductive Err where
  | validationError
  | formatError
  deriving DecidableEq, Repr

/-- The pydantic model from main.py: class User(BaseModel) with the single
field name of type str. -/
structure User where
  name : String
  deriving DecidableEq, Repr

/-- Model of pydantic User.model_validate: succeeds exactly when the field
name is present and holds a string; unknown fields are ignored (the
pydantic default); any other shape raises a validation error. -/
def User.model_validate (data : Payload) : Except Err User :=
  match data.lookup "name" with
  | some (Value.str s) => Except.ok ⟨s⟩
  | _ => Except.error Err.validationError

/-- A wall-clock timestamp, the part of datetime.datetime this service
reads through strftime. -/
structure DateTime where
  year : Nat
  month : Nat
  day : Nat
  hour : Nat
  minute : Nat
  second : Nat
  deriving DecidableEq, Repr

/-- Render a natural number in decimal, left-padded with zeros to the
given width, as strftime directives do. -/
def padZero (w : Nat) (n : Nat) : String :=
  let s := toString n
  if s.length < w then String.mk (List.replicate (w - s.length) '0') ++ s else s

/-- The substitution performed for a single strftime directive character.
Only the directives this service's configuration can exercise are
modelled; an unrecognised directive yields none, which the spec treats as
a malformed pattern failing at render time. -/
def formatDirective (dt : DateTime) (c : Char) : Option String :=
  if c = 'Y' then some (padZero 4 dt.year)
  else if c = 'm' then some (padZero 2 dt.month)
  else if c = 'd' then some (padZero 2 dt.day)
  else if c = 'H' then some (padZero 2 dt.hour)
  else if c = 'M' then some (padZero 2 dt.minute)
  else if c = 'S' then some (padZero 2 dt.second)
  else if c = '%' then some "%"
  else none

/-- Recursive kernel of the strftime renderer over the pattern characters:
a percent sign introduces a directive, every other character is copied
verbatim; a trailing percent sign or an unrecognised directive fails. -/
def strftimeAux (dt : DateTime) : List Char → Option String
  | [] => some ""
  | ['%'] => none
  | '%' :: c :: rest =>
      match formatDirective dt c with
      | some s => (strftimeAux dt rest).map (fun r => s ++ r)
      | none => none
  | c :: rest => (strftimeAux dt rest).map (fun r => c.toString ++ r)

/-- Model of datetime.strftime for the pattern language described in the
spec: field substitution per pattern tokens, failing on a malformed
pattern. -/
def DateTime.strftime (dt : DateTime) (fmt : String) : Option String :=
  strftimeAux dt fmt.data

/-- The configuration accessor: the opaque capability exposing
get_config(key); a key may be absent, in which case the accessor yields
none (as the framework does for an unset option). -/
structure FSContext where
  get_config : String → Option String

/-- The handler get_current_time from main.py, with the clock read made an
explicit argument now. It validates the payload into User, reads the
clock, retrieves the pattern under the key format, renders the timestamp
and wraps the greeting under the key result; a missing or malformed
pattern fails at render time with a format error. -/
def get_current_time (context : FSContext) (data : Payload) (now : DateTime) :
    Except Err Payload :=
  match User.model_validate data with
  | Except.error e => Except.error e
  | Except.ok user =>
    match context.get_config "format" with
    | none => Except.error Err.formatError
    | some fmt =>
      match now.strftime fmt with
      | none => Except.error Err.formatError
      | some t =>
        Except.ok [("result",
          Value.str ("Hi, " ++ user.name ++ ", the current time is " ++ t ++ "."))]

/-- Observable effects an invocation of the handler can perform, with
constructors for the mutations the handler could in principle attempt on
its inputs so their absence is expressible. -/
inductive Event where
  | validate
  | clockRead
  | configGet (key : String)
  | render
  | payloadMutate
  | configMutate
  deriving DecidableEq, Repr

/-- The handler together with the trace of effects it performs, line by
line as in main.py: validation first; only when validation succeeds does
the handler read the clock, consult the configuration accessor, and
attempt rendering (rendering is attempted even when the retrieved pattern
is absent, which is where the failure surfaces). -/
def get_current_time_run (context : FSContext) (data : Payload) (now : DateTime) :
    List Event × Except Err Payload :=
  match User.model_validate data with
  | Except.error e => ([Event.validate], Except.error e)
  | Except.ok user =>
    let evs := [Event.validate, Event.clockRead, Event.configGet "format", Event.render]
    match context.get_config "format" with
    | none => (evs, Except.error Err.formatError)
    | some fmt =>
      match now.strftime fmt with
      | none => (evs, Except.error Err.formatError)
      | some t =>
        (evs, Except.ok [("result",
          Value.str ("Hi, " ++ user.name ++ ", the current time is " ++ t ++ "."))])

/-- The handler with its inputs threaded through as state, mirroring that
every statement in the body only reads the context and the payload: each
step passes both along unchanged. -/
def get_current_time_world (context : FSContext) (data : Payload) (now : DateTime) :
    (FSContext × Payload) × Except Err Payload :=
  match User.model_validate data with
  | Except.error e => ((context, data), Except.error e)
  | Except.ok user =>
    match context.get_config "format" with
    | none => ((context, data), Except.error Err.formatError)
    | some fmt =>
      match now.strftime fmt with
      | none => ((context, data), Except.error Err.formatError)
      | some t =>
        ((context, data), Except.ok [("result",
          Value.str ("Hi, " ++ user.name ++ ", the current time is " ++ t ++ "."))])

/-- The exception classes the bootstrap code distinguishes: the except
clause in main catches the Exception class, while KeyboardInterrupt is
only caught by the guard around asyncio.run. -/
inductive BaseExc where
  | exc (msg : String)
  | keyboardInterrupt
  deriving DecidableEq, Repr

/-- How the awaited framework run loop function.start() ends: normal
completion or an escaping exception. -/
inductive StartOutcome where
  | normal
  | raises (e : BaseExc)
  deriving DecidableEq, Repr

/-- Observable steps of the bootstrap wrapper. -/
inductive BootEvent where
  | printed (msg : String)
  | startAwaited
  | closeAwaited
  deriving DecidableEq, Repr

/-- The async bootstrap wrapper main from main.py as a trace function of
the run-loop outcome: it prints the startup line, awaits function.start(),
logs any Exception-class failure in the except clause, and always awaits
function.close() in the finally block; the second component is the
exception escaping main, if any (only KeyboardInterrupt escapes the
except clause, and the finally block still runs first). -/
def Boot.main (o : StartOutcome) : List BootEvent × Option BaseExc :=
  match o with
  | StartOutcome.normal =>
      ([BootEvent.printed "Starting agent function service...",
        BootEvent.startAwaited, BootEvent.closeAwaited], none)
  | StartOutcome.raises (BaseExc.exc m) =>
      ([BootEvent.printed "Starting agent function service...",
        BootEvent.startAwaited,
        BootEvent.printed ("\nAn error occurred: " ++ m),
        BootEvent.closeAwaited], none)
  | StartOutcome.raises BaseExc.keyboardInterrupt =>
      ([BootEvent.printed "Starting agent function service...",
        BootEvent.startAwaited, BootEvent.closeAwaited],
       some BaseExc.keyboardInterrupt)

/-- The module entry point guard around asyncio.run(main()): it catches
KeyboardInterrupt and prints the stop message; the full trace of the
process is the trace of main followed by that message when main escaped
with KeyboardInterrupt. -/
def mainEntry (o : StartOutcome) : List BootEvent :=
  match Boot.main o with
  | (evs, some BaseExc.keyboardInterrupt) => evs ++ [BootEvent.printed "\nService stopped"]
  | (evs, _) => evs

/-- Claim C1: for every payload whose field name is a string, every
pattern the renderer accepts, and every clock value, get_current_time
returns a mapping with the single key result holding exactly the string
"Hi, {name}, the current time is {formatted_time}." where formatted_time
is the clock rendered with the pattern retrieved from the configuration
accessor under the key format. -/
theorem greeting_ok (context : FSContext) (data : Payload) (now : DateTime)
    (n fmt t : String)
    (hname : data.lookup "name" = some (Value.str n))
    (hfmt : context.get_config "format" = some fmt)
    (ht : now.strftime fmt = some t) :
    get_current_time context data now =
      Except.ok [("result",
        Value.str ("Hi, " ++ n ++ ", the current time is " ++ t ++ "."))] := by
  simp [get_current_time, User.model_validate, hname, hfmt, ht]

theorem greeting_ok_witness :
    get_current_time ⟨fun k => if k = "format" then some "%Y-%m-%d %H:%M:%S" else none⟩
        [("name", Value.str "Alice")] ⟨2025, 8, 30, 12, 30, 45⟩ =
      Except.ok [("result",
        Value.str ("Hi, " ++ "Alice" ++ ", the current time is "
          ++ "2025-08-30 12:30:45" ++ "."))] :=
  greeting_ok _ _ _ "Alice" "%Y-%m-%d %H:%M:%S" "2025-08-30 12:30:45"
    (by decide) rfl (by decide)

/-- Claim C2: with the clock fixed at 2025-08-30 12:30:45 and payload name
Alice, the pattern "%Y-%m-%d %H:%M:%S" yields the result
"Hi, Alice, the current time is 2025-08-30 12:30:45." and the pattern
"%H:%M" yields "Hi, Alice, the current time is 12:30.". -/
theorem greeting_examples :
    get_current_time ⟨fun k => if k = "format" then some "%Y-%m-%d %H:%M:%S" else none⟩
        [("name", Value.str "Alice")] ⟨2025, 8, 30, 12, 30, 45⟩ =
      Except.ok [("result", Value.str "Hi, Alice, the current time is 2025-08-30 12:30:45.")] ∧
    get_current_time ⟨fun k => if k = "format" then some "%H:%M" else none⟩
        [("name", Value.str "Alice")] ⟨2025, 8, 30, 12, 30, 45⟩ =
      Except.ok [("result", Value.str "Hi, Alice, the current time is 12:30.")] :=
  ⟨rfl, rfl⟩

/-- Claim C3: for every payload in which the field name is missing or not
a string, get_current_time fails with the validation error and produces no
output payload. -/
theorem greeting_invalid_name (context : FSContext) (data : Payload) (now : DateTime)
    (h : ∀ s : String, data.lookup "name" ≠ some (Value.str s)) :
    get_current_time context data now = Except.error Err.validationError := by
  cases hl : data.lookup "name" with
  | none => simp [get_current_time, User.model_validate, hl]
  | some v =>
    cases v with
    | str s => exact absurd hl (h s)
    | int m => simp [get_current_time, User.model_validate, hl]
    | bool b => simp [get_current_time, User.model_validate, hl]
    | null => simp [get_current_time, User.model_validate, hl]

theorem greeting_invalid_name_witness :
    get_current_time ⟨fun _ => some "%H:%M"⟩ [("name", Value.int 3)]
        ⟨2025, 8, 30, 12, 30, 45⟩ =
      Except.error Err.validationError :=
  greeting_invalid_name _ _ _
    (fun s hs => by
      rw [show (([("name", Value.int 3)] : Payload).lookup "name")
            = some (Value.int 3) from rfl] at hs
      simp at hs)

/-- Claim C4: for every payload with a valid string name, if the
configuration accessor has no value under the key format or the retrieved
pattern is malformed, the invocation fails with a format error raised at
render time: validation has passed, the clock was read, the accessor was
consulted and rendering was attempted. -/
theorem greeting_format_error (context : FSContext) (data : Payload) (now : DateTime)
    (n : String)
    (hname : data.lookup "name" = some (Value.str n))
    (hfmt : context.get_config "format" = none ∨
      ∃ fmt, context.get_config "format" = some fmt ∧ now.strftime fmt = none) :
    get_current_time_run context data now =
      ([Event.validate, Event.clockRead, Event.configGet "format", Event.render],
       Except.error Err.formatError) := by
  rcases hfmt with h | ⟨fmt, hf, hs⟩
  · simp [get_current_time_run, User.model_validate, hname, h]
  · simp [get_current_time_run, User.model_validate, hname, hf, hs]

theorem greeting_format_error_witness :
    get_current_time_run ⟨fun k => if k = "format" then some "%Q" else none⟩
        [("name", Value.str "Alice")] ⟨2025, 8, 30, 12, 30, 45⟩ =
      ([Event.validate, Event.clockRead, Event.configGet "format", Event.render],
       Except.error Err.formatError) :=
  greeting_format_error _ _ _ "Alice" (by decide) (Or.inr ⟨"%Q", rfl, by decide⟩)

/-- Claim C5: for a fixed clock value and identical payloads, two
invocations whose configuration accessors agree on the key format (the
only key consumed) produce identical outputs; the clock read is the only
source of variation between calls. -/
theorem greeting_idempotent (ctx₁ ctx₂ : FSContext) (data : Payload) (now : DateTime)
    (h : ctx₁.get_config "format" = ctx₂.get_config "format") :
    get_current_time ctx₁ data now = get_current_time ctx₂ data now := by
  unfold get_current_time
  rw [h]

theorem greeting_idempotent_witness :
    get_current_time ⟨fun k => if k = "format" then some "%H:%M" else none⟩
        [("name", Value.str "Alice")] ⟨2025, 8, 30, 12, 30, 45⟩ =
      get_current_time ⟨fun k => if k = "format" then some "%H:%M" else some "other"⟩
        [("name", Value.str "Alice")] ⟨2025, 8, 30, 12, 30, 45⟩ :=
  greeting_idempotent _ _ _ _ (by decide)

/-- Claim C6: the handler performs its steps in the specified order:
validation, then clock read, then configuration retrieval, then
rendering; for an invalid payload the validation failure occurs before
the clock is read or the accessor is consulted, so the trace is the
single validation event; and the traced run returns the same outcome as
the handler. -/
theorem greeting_effect_order (context : FSContext) (data : Payload) (now : DateTime) :
    (User.model_validate data = Except.error Err.validationError →
      (get_current_time_run context data now).1 = [Event.validate]) ∧
    (∀ u, User.model_validate data = Except.ok u →
      (get_current_time_run context data now).1 =
        [Event.validate, Event.clockRead, Event.configGet "format", Event.render]) ∧
    (get_current_time_run context data now).2 = get_current_time context data now := by
  refine ⟨?_, ?_, ?_⟩
  · intro h
    simp [get_current_time_run, h]
  · intro u h
    cases hf : context.get_config "format" with
    | none => simp [get_current_time_run, h, hf]
    | some fmt =>
      cases hs : now.strftime fmt with
      | none => simp [get_current_time_run, h, hf, hs]
      | some t => simp [get_current_time_run, h, hf, hs]
  · cases hv : User.model_validate data with
    | error e => simp [get_current_time_run, get_current_time, hv]
    | ok u =>
      cases hf : context.get_config "format" with
      | none => simp [get_current_time_run, get_current_time, hv, hf]
      | some fmt =>
        cases hs : now.strftime fmt with
        | none => simp [get_current_time_run, get_current_time, hv, hf, hs]
        | some t => simp [get_current_time_run, get_current_time, hv, hf, hs]

theorem greeting_effect_order_witness :
    (get_current_time_run ⟨fun _ => none⟩ [] ⟨2025, 8, 30, 12, 30, 45⟩).1
      = [Event.validate] :=
  (greeting_effect_order ⟨fun _ => none⟩ [] ⟨2025, 8, 30, 12, 30, 45⟩).1 rfl

/-- Claim C7: the payload whose name field is the empty string passes
validation, since only the type of name is checked, and for any accepted
pattern the call succeeds with the result
"Hi, , the current time is {formatted_time}.". -/
theorem greeting_empty_name (context : FSContext) (now : DateTime) (fmt t : String)
    (hfmt : context.get_config "format" = some fmt)
    (ht : now.strftime fmt = some t) :
    get_current_time context [("name", Value.str "")] now =
      Except.ok [("result", Value.str ("Hi, , the current time is " ++ t ++ "."))] := by
  simp [get_current_time, User.model_validate, hfmt, ht]

theorem greeting_empty_name_witness :
    get_current_time ⟨fun k => if k = "format" then some "%H:%M" else none⟩
        [("name", Value.str "")] ⟨2025, 8, 30, 12, 30, 45⟩ =
      Except.ok [("result", Value.str ("Hi, , the current time is " ++ "12:30" ++ "."))] :=
  greeting_empty_name _ _ "%H:%M" "12:30" rfl (by decide)

/-- Claim C8: an invocation, successful or failing, has no side effect
beyond the clock read: the state-threaded run returns the context and the
payload unchanged and agrees with the handler, and the effect trace never
contains a mutation of the payload or of the configuration accessor. -/
theorem greeting_frame (context : FSContext) (data : Payload) (now : DateTime) :
    (get_current_time_world context data now).1 = (context, data) ∧
    Event.payloadMutate ∉ (get_current_time_run context data now).1 ∧
    Event.configMutate ∉ (get_current_time_run context data now).1 ∧
    (get_current_time_world context data now).2 = get_current_time context data now := by
  refine ⟨?_, ?_, ?_, ?_⟩ <;>
  · cases hv : User.model_validate data with
    | error e =>
      simp [get_current_time_world, get_current_time_run, get_current_time, hv]
    | ok u =>
      cases hf : context.get_config "format" with
      | none =>
        simp [get_current_time_world, get_current_time_run, get_current_time, hv, hf]
      | some fmt =>
        cases hs : now.strftime fmt with
        | none =>
          simp [get_current_time_world, get_current_time_run, get_current_time, hv, hf, hs]
        | some t =>
          simp [get_current_time_world, get_current_time_run, get_current_time, hv, hf, hs]

/-- Claim C9: two payloads that agree on the string field name give
identical outputs for the same context and clock; extra keys beyond name
are ignored and neither change the result nor fail validation. -/
theorem greeting_name_only (context : FSContext) (data₁ data₂ : Payload) (now : DateTime)
    (n : String)
    (h₁ : data₁.lookup "name" = some (Value.str n))
    (h₂ : data₂.lookup "name" = some (Value.str n)) :
    get_current_time context data₁ now = get_current_time context data₂ now := by
  simp [get_current_time, User.model_validate, h₁, h₂]

theorem greeting_name_only_witness :
    get_current_time ⟨fun k => if k = "format" then some "%H:%M" else none⟩
        [("name", Value.str "Alice")] ⟨2025, 8, 30, 12, 30, 45⟩ =
      get_current_time ⟨fun k => if k = "format" then some "%H:%M" else none⟩
        [("extra", Value.int 7), ("name", Value.str "Alice"), ("more", Value.null)]
        ⟨2025, 8, 30, 12, 30, 45⟩ :=
  greeting_name_only _ _ _ _ "Alice" (by decide) (by decide)

/-- Claim C10: in the bootstrap wrapper, an exception of the Exception
class raised while the service runs is caught and logged and does not
escape the wrapper; in every outcome the framework shutdown
function.close() is the final awaited step of the wrapper before it
returns; and a KeyboardInterrupt still runs the shutdown before the entry
guard prints the stop message and the process terminates. -/
theorem bootstrap_shutdown (o : StartOutcome) :
    ((Boot.main o).1).getLast? = some BootEvent.closeAwaited ∧
    (∀ m, o = StartOutcome.raises (BaseExc.exc m) →
      BootEvent.printed ("\nAn error occurred: " ++ m) ∈ (Boot.main o).1 ∧
      (Boot.main o).2 = none) ∧
    (o = StartOutcome.raises BaseExc.keyboardInterrupt →
      mainEntry o = (Boot.main o).1 ++ [BootEvent.printed "\nService stopped"]) := by
  cases o with
  | normal =>
    exact ⟨rfl, fun m hm => StartOutcome.noConfusion hm, fun h => StartOutcome.noConfusion h⟩
  | raises e =>
    cases e with
    | exc m =>
      refine ⟨rfl, ?_, ?_⟩
      · intro m' hm'
        injection hm' with h1
        injection h1 with h2
        subst h2
        exact ⟨by simp [Boot.main], rfl⟩
      · intro h
        injection h with h1
        exact BaseExc.noConfusion h1
    | keyboardInterrupt =>
      refine ⟨rfl, ?_, fun _ => rfl⟩
      intro m hm
      injection hm with h1
      exact BaseExc.noConfusion h1

theorem bootstrap_shutdown_witness :
    BootEvent.printed ("\nAn error occurred: " ++ "boom")
        ∈ (Boot.main (StartOutcome.raises (BaseExc.exc "boom"))).1 ∧
      (Boot.main (StartOutcome.raises (BaseExc.exc "boom"))).2 = none :=
  (bootstrap_shutdown (StartOutcome.raises (BaseExc.exc "boom"))).2.1 "boom" rfl
